import Mathlib

/-!
Verification development for the `Smart_PLL_Interface` repository
(`rf_controller.py`, `gui_main.py`).

The embedding below translates the `RFController` class of
`rf_controller.py` into pure Lean functions over an explicit state record.
Frequencies are modelled as exact rationals (`ℚ`): every value appearing in
the spec's scenarios is exactly representable as a binary64 float, so the
rational model agrees with the Python float semantics on everything proved
here.  Side effects on the external world (writes to the serial transport,
spawned background threads, handles left open) are recorded in ghost
observation fields of the state so that theorems can talk about them.

The `while` loops of the source are translated fuel-indexed, which keeps
everything total while still letting us observe non-termination (a run that
is in state `outOfFuel` for every fuel bound never exits the loop).
-/

/-- A line written to the transport by `send_command`.  The sweep loop sends
`SETFREQ <current>` and the polling loop sends `STATUS?`; the payload of a
set-frequency command is kept as the exact rational frequency. -/
inductive Command where
  | setFreq (f : ℚ)
  | statusQuery
  deriving DecidableEq

/-- State of one `RFController` instance (`rf_controller.py`,
`RFController.__init__`), plus ghost observation fields.

Source fields: `port`, `serial_handle` (modelled as `Option Bool`:
`none` = the Python `None`, `some true` = an open handle,
`some false` = a handle that has been closed), `rx_queue` (a FIFO list,
oldest first), `connected`, `polling_active`, `_sweep_active`,
`_stop_event` (`true` = the event is set).  The unused `tx_queue` and the
constant device-identity strings are omitted.

Ghost fields (observations of the environment, not Python attributes):
`written` records every line successfully written to the transport;
`sweepThreads` counts `threading.Thread(target=self._sweep_loop, ...)`
starts; `leaked` counts the times `serial_handle` was overwritten while the
previous handle was still open (a handle leak); `writeAfterClose` counts
write attempts that reached a closed handle (`serial.write` raising inside
`send_command`). -/
structure RFState where
  port : Option String
  handle : Option Bool
  rxQueue : List String
  connected : Bool
  pollingActive : Bool
  sweepActive : Bool
  stopEvent : Bool
  written : List Command
  sweepThreads : Nat
  leaked : Nat
  writeAfterClose : Nat
  deriving DecidableEq

/-- `RFController.__init__`: no port, no handle, empty queue, all flags
clear. -/
def initState : RFState :=
  { port := none
    handle := none
    rxQueue := []
    connected := false
    pollingActive := false
    sweepActive := false
    stopEvent := false
    written := []
    sweepThreads := 0
    leaked := 0
    writeAfterClose := 0 }

/-- `RFController.send_command`: returns silently when not connected or when
`serial_handle` is `None`; otherwise attempts the write.  A write on an open
handle succeeds and is recorded; a write on a closed handle raises inside
pyserial and is caught (`TX failed` is printed), recorded in
`writeAfterClose`. -/
def send_command (s : RFState) (cmd : Command) : RFState :=
  match s.connected, s.handle with
  | true, some true => { s with written := s.written ++ [cmd] }
  | true, some false => { s with writeAfterClose := s.writeAfterClose + 1 }
  | _, _ => s

/-- `RFController.read_response`: returns `none` when not connected.
Otherwise `avail` models the environment: `none` when no data is waiting
(or the read raised, which is caught and also yields `None`), `some d` when
a line decodes and strips to `d`.  A non-empty line is appended to the tail
of `rx_queue` and returned. -/
def read_response (s : RFState) (avail : Option String) : RFState × Option String :=
  if s.connected = false then (s, none)
  else
    match avail with
    | none => (s, none)
    | some d => if d = "" then (s, none) else ({ s with rxQueue := s.rxQueue ++ [d] }, some d)

/-- Iterated `read_response` over a sequence of environment read results. -/
def read_many (s : RFState) : List (Option String) → RFState
  | [] => s
  | a :: rest => read_many (read_response s a).1 rest

/-- `RFController.auto_connect`: `ports` is the result of
`serial.tools.list_ports.comports()`, `openOk` tells whether the
`serial.Serial(...)` constructor succeeds.  Empty discovery prints a warning
and returns `False` with the state untouched.  Otherwise `self.port` is
assigned first; on open success the handle is overwritten by the freshly
opened one (the previous open handle, if any, is never closed — recorded in
`leaked`) and `connected` is set; if the open raises, the handler sets
`connected = False` and returns `False` (the old handle attribute keeps its
prior value). -/
def auto_connect (s : RFState) (ports : List String) (openOk : Bool) : RFState × Bool :=
  match ports with
  | [] => (s, false)
  | p :: _ =>
    let s1 : RFState := { s with port := some p }
    if openOk then
      ({ s1 with
          handle := some true
          connected := true
          leaked := if s1.handle = some true then s1.leaked + 1 else s1.leaked }, true)
    else
      ({ s1 with connected := false }, false)

/-- `RFController.disconnect`: clears both activity flags, sets the stop
event, then closes the handle if it is open inside `try/except` (a raising
close is caught and only printed; `closeRaises` models whether
`serial_handle.close()` raises), and the `finally` block clears
`connected`.  The `Except` result type mirrors Python exception
propagation: an `Except.error` result would mean `disconnect` raised. -/
def disconnect (s : RFState) (closeRaises : Bool) : Except String RFState :=
  let s1 : RFState := { s with pollingActive := false, sweepActive := false, stopEvent := true }
  let body : Except String RFState :=
    if s1.handle = some true then
      if closeRaises then Except.error ("Disconnection issue")
      else Except.ok { s1 with handle := some false }
    else Except.ok s1
  let s2 : RFState :=
    match body with
    | Except.ok t => t
    | Except.error _ => s1
  Except.ok { s2 with connected := false }

/-- What `RFController.run_sweep` does synchronously before returning
(it always returns `None` in Python; the constructor records which branch
ran). -/
inductive StartResult where
  | notConnectedWarn
  | started
  deriving DecidableEq

/-- Synchronous part of `RFController.run_sweep`: bails out with a warning
when not connected; otherwise sets `_sweep_active`, clears `_stop_event`
and spawns a new `_sweep_loop` thread.  There is no already-running check
and no parameter validation. -/
def run_sweep_start (s : RFState) : RFState × StartResult :=
  if s.connected = false then (s, StartResult.notConnectedWarn)
  else
    ({ s with sweepActive := true, stopEvent := false, sweepThreads := s.sweepThreads + 1 },
      StartResult.started)

/-- How one fuel-bounded run of `_sweep_loop` ended: `completed` is the
`break` taken when `current >= stop_freq` after the increment (the value
carried is `current` at that moment); `cancelExit` is the `while` condition
failing; `outOfFuel` means the loop was still running after the given
number of iterations. -/
inductive SweepEnd where
  | completed (c : ℚ)
  | cancelExit (c : ℚ)
  | outOfFuel (c : ℚ)
  deriving DecidableEq

/-- `true` iff a run ended through the `Sweep complete.` break. -/
def isCompleted : SweepEnd → Bool
  | SweepEnd.completed _ => true
  | _ => false

/-- `RFController._sweep_loop`, fuel-indexed, in the single-threaded model
where no other thread mutates the flags during the run: each iteration
re-checks `_sweep_active and not _stop_event`, sends `SETFREQ current`,
increments `current` by `step_hz`, breaks when `current >= stop_freq`,
otherwise dwells and repeats.  On any exit `_sweep_active` is cleared. -/
def sweep_loop (stop_freq step_hz : ℚ) : Nat → ℚ → RFState → RFState × SweepEnd
  | 0, current, s => (s, SweepEnd.outOfFuel current)
  | n + 1, current, s =>
    if s.sweepActive = true ∧ s.stopEvent = false then
      let s1 := send_command s (Command.setFreq current)
      let next := current + step_hz
      if stop_freq ≤ next then ({ s1 with sweepActive := false }, SweepEnd.completed next)
      else sweep_loop stop_freq step_hz n next s1
    else ({ s with sweepActive := false }, SweepEnd.cancelExit current)

theorem sweep_loop_succ (stop_freq step_hz : ℚ) (n : Nat) (current : ℚ) (s : RFState) :
    sweep_loop stop_freq step_hz (n + 1) current s =
      if s.sweepActive = true ∧ s.stopEvent = false then
        let s1 := send_command s (Command.setFreq current)
        let next := current + step_hz
        if stop_freq ≤ next then ({ s1 with sweepActive := false }, SweepEnd.completed next)
        else sweep_loop stop_freq step_hz n next s1
      else ({ s with sweepActive := false }, SweepEnd.cancelExit current) := rfl

/-- `run_sweep` followed by the spawned `_sweep_loop` running to completion
or fuel exhaustion with no concurrent interference (the uncancelled run):
the synchronous result together with the loop's outcome. -/
def run_sweep (s : RFState) (start_freq stop_freq step_hz : ℚ) (fuel : Nat) :
    RFState × StartResult × Option SweepEnd :=
  match run_sweep_start s with
  | (s1, StartResult.started) =>
    let r := sweep_loop stop_freq step_hz fuel start_freq s1
    (r.1, StartResult.started, some r.2)
  | (s1, r) => (s1, r, none)

/-- A fresh controller that has successfully connected: the state after
`auto_connect` found a port and opened it. -/
def connState : RFState :=
  { initState with port := some ("PORT0"), handle := some true, connected := true }

/-!
Interleaving model for `disconnect` racing a running `_sweep_loop` thread.
`disconnect` is decomposed into its five atomic statements and one
`_sweep_loop` iteration into its atomic statements; a schedule chooses
which thread performs the next atomic step.  `send_command` and the flag
reads/writes are exactly the definitions above.
-/

/-- Program counter of the `_sweep_loop` thread: about to evaluate the
`while` condition, about to call `send_command`, about to increment and
test `current`, about to `time.sleep`, or exited. -/
inductive SweepPC where
  | atCheck
  | atSend
  | atAdvance
  | atSleep
  | done
  deriving DecidableEq

/-- Which thread performs the next atomic step. -/
inductive Move where
  | main
  | sweep
  deriving DecidableEq

/-- A configuration of the two-thread system: shared controller state, the
program counter of the main thread inside `disconnect` (0..4 = the next
statement to run, 5 = returned), the sweep thread's program counter and its
local variables. -/
structure Conf where
  st : RFState
  dpc : Nat
  spc : SweepPC
  cur : ℚ
  stopF : ℚ
  stepF : ℚ
  deriving DecidableEq

/-- One atomic step of the main thread executing `disconnect` (with a close
that does not raise): `self.polling_active = False`;
`self._sweep_active = False`; `self._stop_event.set()`; the guarded
`close()`; finally `self.connected = False`. -/
def stepMain (c : Conf) : Conf :=
  match c.dpc with
  | 0 => { c with st := { c.st with pollingActive := false }, dpc := 1 }
  | 1 => { c with st := { c.st with sweepActive := false }, dpc := 2 }
  | 2 => { c with st := { c.st with stopEvent := true }, dpc := 3 }
  | 3 =>
    if c.st.handle = some true then
      { c with st := { c.st with handle := some false }, dpc := 4 }
    else { c with dpc := 4 }
  | 4 => { c with st := { c.st with connected := false }, dpc := 5 }
  | _ => c

/-- One atomic step of the sweep thread inside `_sweep_loop`. -/
def stepSweep (c : Conf) : Conf :=
  match c.spc with
  | SweepPC.atCheck =>
    if c.st.sweepActive = true ∧ c.st.stopEvent = false then { c with spc := SweepPC.atSend }
    else { c with st := { c.st with sweepActive := false }, spc := SweepPC.done }
  | SweepPC.atSend =>
    { c with st := send_command c.st (Command.setFreq c.cur), spc := SweepPC.atAdvance }
  | SweepPC.atAdvance =>
    let next := c.cur + c.stepF
    if c.stopF ≤ next then
      { c with st := { c.st with sweepActive := false }, cur := next, spc := SweepPC.done }
    else { c with cur := next, spc := SweepPC.atSleep }
  | SweepPC.atSleep => { c with spc := SweepPC.atCheck }
  | SweepPC.done => c

/-- Perform one scheduled atomic step. -/
def stepConf (c : Conf) : Move → Conf
  | Move.main => stepMain c
  | Move.sweep => stepSweep c

/-- Run a schedule of atomic steps. -/
def runSched (c : Conf) : List Move → Conf
  | [] => c
  | m :: rest => runSched (stepConf c m) rest

/-- Initial configuration for the race: a connected session with an open
handle and a sweep mid-run (the sweep thread is about to evaluate the
`while` condition, far from its stop frequency), while the main thread is
entering `disconnect`. -/
def raceConf : Conf :=
  { st := { connState with sweepActive := true, sweepThreads := 1 }
    dpc := 0
    spc := SweepPC.atCheck
    cur := 100
    stopF := 1000000
    stepF := 10 }

/-- The interleaving in which the sweep thread passes the `while` check,
then `disconnect` runs all the way through closing the handle, and only
then does the sweep thread execute its pending `send_command`. -/
def racePlan : List Move :=
  [Move.sweep, Move.main, Move.main, Move.main, Move.main, Move.sweep, Move.main]

/-!
Helper lemmas shared by several claim theorems.
-/

/-- All exit paths of `disconnect` return `Except.ok` (the `except` clause
swallows a raising close, the `finally` clause clears `connected`), and
every path has both activity flags cleared and the stop event set. -/
theorem disconnect_ok_fields (s : RFState) (b : Bool) :
    ∃ t, disconnect s b = Except.ok t ∧ t.connected = false ∧ t.pollingActive = false
      ∧ t.sweepActive = false ∧ t.stopEvent = true := by
  unfold disconnect
  by_cases h : s.handle = some true <;> cases b <;> simp [h]

/-- If the value after the pending increment is already strictly below
`stop_freq` and the step is negative, the loop's `current >= stop_freq`
break test can never fire again: the run never reaches
`Sweep complete.`, for any fuel bound. -/
theorem sweep_loop_overshoot (n : Nat) (stop_freq step_hz : ℚ) :
    ∀ (c : ℚ) (s : RFState), step_hz < 0 → c + step_hz < stop_freq →
      isCompleted (sweep_loop stop_freq step_hz n c s).2 = false := by
  induction n with
  | zero => intro c s _ _; simp [sweep_loop, isCompleted]
  | succ m ih =>
    intro c s hstep h
    rw [sweep_loop_succ]
    by_cases hrun : s.sweepActive = true ∧ s.stopEvent = false
    · simp only [hrun, and_self, if_true, if_pos]
      rw [if_neg (not_le.mpr h)]
      exact ih (c + step_hz) _ hstep (by linarith)
    · simp [hrun, isCompleted]

/-- Reading `n` available non-empty lines on a connected session grows
`rx_queue` by exactly `n` entries. -/
theorem read_many_replicate (n : Nat) (d : String) (hd : ¬ d = "") :
    ∀ s : RFState, s.connected = true →
      (read_many s (List.replicate n (some d))).rxQueue.length = s.rxQueue.length + n := by
  induction n with
  | zero => intro s _; simp [read_many]
  | succ m ih =>
    intro s h
    rw [List.replicate_succ]
    show (read_many (read_response s (some d)).1 (List.replicate m (some d))).rxQueue.length = _
    rw [read_response]
    simp only [h, Bool.true_eq_false, if_false, hd, if_neg]
    rw [ih _ (by simp [h])]
    simp
    omega

/-- A connected session whose sweep is currently running with its stop
event set (a `stop_sweep` request that the loop has not observed yet). -/
def busySweepState : RFState :=
  { connState with sweepActive := true, stopEvent := true, sweepThreads := 1 }

/-- A connected session with a sweep loop running normally. -/
def activeSweepState : RFState :=
  { connState with sweepActive := true }

/-!
Claim theorems.
-/

/-- C1 counterexample: on a connected session with a sweep already active
and its stop event set, `run_sweep` does not reject the call: it reports
the started branch, flips the running sweep's stop signal from set to
clear, and spawns a second sweep thread — so the claim's `AlreadyRunning`
rejection, its unchanged-stop-signal guarantee, and the single-flight
invariant all fail on this input. -/
theorem C1_counterexample :
    (run_sweep_start busySweepState).2 = StartResult.started
    ∧ busySweepState.stopEvent = true
    ∧ (run_sweep_start busySweepState).1.stopEvent = false
    ∧ (run_sweep_start busySweepState).1.sweepThreads = 2 := by decide

/-- C1 (amended): `run_sweep` performs no already-running check: on every
connected session, even one whose sweep is already active, it sets
`_sweep_active`, clears the running sweep's stop event, reports the
started branch, and spawns an additional sweep thread, so more than one
sweep activity can be active for the same session. -/
theorem C1_second_start_unchecked (s : RFState)
    (hC : s.connected = true) (_hA : s.sweepActive = true) :
    run_sweep_start s =
      ({ s with sweepActive := true, stopEvent := false, sweepThreads := s.sweepThreads + 1 },
        StartResult.started) := by
  simp [run_sweep_start, hC]

/-- C1 witness: the amended claim evaluated on the concrete busy session. -/
theorem C1_witness :
    busySweepState.connected = true ∧ busySweepState.sweepActive = true
    ∧ run_sweep_start busySweepState =
      ({ busySweepState with
          sweepActive := true
          stopEvent := false
          sweepThreads := busySweepState.sweepThreads + 1 }, StartResult.started) :=
  ⟨rfl, rfl, C1_second_start_unchecked busySweepState rfl rfl⟩

set_option maxRecDepth 4000 in
/-- C2: on every connected session with an open handle, the uncancelled
sweep with `start_hz = 1000000000`, `stop_hz = 1000030000`,
`step_hz = 10000` writes exactly the set-frequency commands
1000000000, 1000010000, 1000020000 in that order (no command at
1000030000) and the run ends in the completed state. -/
theorem C2_scenario_trace (s : RFState) (n : Nat)
    (hC : s.connected = true) (hH : s.handle = some true) :
    ((run_sweep s 1000000000 1000030000 10000 (n + 3)).1.written
       = s.written ++ [Command.setFreq 1000000000, Command.setFreq 1000010000,
           Command.setFreq 1000020000])
    ∧ (run_sweep s 1000000000 1000030000 10000 (n + 3)).2
       = (StartResult.started, some (SweepEnd.completed 1000030000)) := by
  have h3 : n + 3 = ((n + 1) + 1) + 1 := rfl
  rw [h3]
  norm_num [run_sweep, run_sweep_start, sweep_loop_succ, send_command, hC, hH]

/-- C2 witness: the scenario evaluated on the concrete connected session. -/
theorem C2_witness :
    connState.connected = true ∧ connState.handle = some true
    ∧ ((run_sweep connState 1000000000 1000030000 10000 3).1.written
         = connState.written ++ [Command.setFreq 1000000000, Command.setFreq 1000010000,
             Command.setFreq 1000020000])
    ∧ (run_sweep connState 1000000000 1000030000 10000 3).2
       = (StartResult.started, some (SweepEnd.completed 1000030000)) :=
  ⟨rfl, rfl, (C2_scenario_trace connState 0 rfl rfl).1, (C2_scenario_trace connState 0 rfl rfl).2⟩

/-- C3 counterexample: for the valid decreasing sweep
`start_hz = 10`, `stop_hz = 0`, `step_hz = -20` (step negative, stop below
start), the loop never reaches the completed state at any fuel bound —
it does not terminate by the claimed `current <= stop_hz` rule within
`ceil(10 / 20) = 1` steps — and with two iterations of fuel it has already
sent a second command, at `-10`, a value past `stop_hz`. -/
theorem C3_counterexample :
    ((-20 : ℚ) < 0 ∧ (0 : ℚ) < 10)
    ∧ (¬ ∃ n : Nat, isCompleted (sweep_loop 0 (-20) n 10 activeSweepState).2 = true)
    ∧ (sweep_loop 0 (-20) 2 10 activeSweepState).1.written
        = [Command.setFreq 10, Command.setFreq (-10)] := by
  refine ⟨by norm_num, ?_, ?_⟩
  · rintro ⟨n, hn⟩
    rw [sweep_loop_overshoot n 0 (-20) 10 activeSweepState (by norm_num) (by norm_num)] at hn
    exact Bool.false_ne_true hn
  · norm_num [sweep_loop, send_command, activeSweepState, connState, initState]

/-- C3 (amended): the sweep loop has no direction-aware comparison — it
always tests `current >= stop_hz`.  For a decreasing sweep (`step_hz < 0`,
`stop_hz < start_hz`) this gives a dichotomy: if the very first increment
does not land strictly below `stop_hz`, the loop sends exactly one command
(at `start_hz`) and immediately reports completion with
`current = start_hz + step_hz` still above `stop_hz`; and if the first
increment overshoots strictly below `stop_hz`, the run never completes at
any fuel bound. -/
theorem C3_decreasing_dichotomy (start_freq stop_freq step_hz : ℚ) (s : RFState) (n : Nat)
    (hstep : step_hz < 0) (_hdir : stop_freq < start_freq)
    (hA : s.sweepActive = true) (hE : s.stopEvent = false) :
    (stop_freq ≤ start_freq + step_hz →
       sweep_loop stop_freq step_hz (n + 1) start_freq s
         = ({ send_command s (Command.setFreq start_freq) with sweepActive := false },
             SweepEnd.completed (start_freq + step_hz)))
    ∧ (start_freq + step_hz < stop_freq →
       isCompleted (sweep_loop stop_freq step_hz n start_freq s).2 = false) := by
  constructor
  · intro h
    rw [sweep_loop_succ]
    simp [hA, hE, h]
  · intro h
    exact sweep_loop_overshoot n stop_freq step_hz start_freq s hstep h

/-- C3 witness: the amended dichotomy evaluated on the concrete decreasing
sweep `start_hz = 10`, `stop_hz = 0`, `step_hz = -5`. -/
theorem C3_witness :
    ((-5 : ℚ) < 0 ∧ (0 : ℚ) < 10 ∧ activeSweepState.sweepActive = true
      ∧ activeSweepState.stopEvent = false)
    ∧ ((0 : ℚ) ≤ 10 + (-5) →
        sweep_loop 0 (-5) (0 + 1) 10 activeSweepState
          = ({ send_command activeSweepState (Command.setFreq 10) with sweepActive := false },
              SweepEnd.completed (10 + (-5))))
    ∧ ((10 : ℚ) + (-5) < 0 →
        isCompleted (sweep_loop 0 (-5) 0 10 activeSweepState).2 = false) :=
  ⟨⟨by norm_num, by norm_num, rfl, rfl⟩,
    (C3_decreasing_dichotomy 10 0 (-5) activeSweepState 0 (by norm_num) (by norm_num) rfl rfl).1,
    (C3_decreasing_dichotomy 10 0 (-5) activeSweepState 0 (by norm_num) (by norm_num) rfl rfl).2⟩

/-- C4 counterexample: on the concrete connected session, `run_sweep` with
`start_hz = 5`, `stop_hz = 5`, `step_hz = 1` does not fail with any
validation error: it takes the started branch, spawns a background sweep
thread, and that sweep sends the set-frequency command at 5 and then
completes. -/
theorem C4_counterexample :
    (run_sweep connState 5 5 1 10).2.1 = StartResult.started
    ∧ (run_sweep connState 5 5 1 10).1.sweepThreads = 1
    ∧ (run_sweep connState 5 5 1 10).1.written = [Command.setFreq 5]
    ∧ (run_sweep connState 5 5 1 10).2.2 = some (SweepEnd.completed 6) := by
  norm_num [run_sweep, run_sweep_start, sweep_loop, send_command, connState, initState]

/-- C4 (amended): `run_sweep` performs no parameter validation.  On every
connected session with an open handle, a sweep whose `start_hz` equals its
`stop_hz` (with a positive step) is started as a background activity, and
that activity sends exactly one set-frequency command, at `start_hz`,
before terminating in the completed state. -/
theorem C4_no_validation (s : RFState) (v step_hz : ℚ) (n : Nat)
    (hC : s.connected = true) (hH : s.handle = some true) (hstep : 0 < step_hz) :
    (run_sweep s v v step_hz (n + 1)).2.1 = StartResult.started
    ∧ (run_sweep s v v step_hz (n + 1)).1.sweepThreads = s.sweepThreads + 1
    ∧ (run_sweep s v v step_hz (n + 1)).1.written = s.written ++ [Command.setFreq v]
    ∧ (run_sweep s v v step_hz (n + 1)).2.2 = some (SweepEnd.completed (v + step_hz)) := by
  have hle : v ≤ v + step_hz := by linarith
  simp [run_sweep, run_sweep_start, sweep_loop_succ, send_command, hC, hH, hle]

/-- C4 witness: the amended claim evaluated at the spec's scenario
parameters on the concrete connected session. -/
theorem C4_witness :
    (connState.connected = true ∧ connState.handle = some true ∧ (0 : ℚ) < 1)
    ∧ ((run_sweep connState 5 5 1 1).2.1 = StartResult.started
       ∧ (run_sweep connState 5 5 1 1).1.sweepThreads = connState.sweepThreads + 1
       ∧ (run_sweep connState 5 5 1 1).1.written = connState.written ++ [Command.setFreq 5]
       ∧ (run_sweep connState 5 5 1 1).2.2 = some (SweepEnd.completed (5 + 1))) :=
  ⟨⟨rfl, rfl, by norm_num⟩, C4_no_validation connState 5 1 0 rfl rfl (by norm_num)⟩

/-- C5 counterexample: in the interleaving `racePlan` of the concrete race
configuration, the sweep thread passes the `while` condition, `disconnect`
then runs to completion — closing the handle without waiting for the sweep
thread — and the sweep thread's pending `send_command` reaches the closed
transport handle (one write-after-close), while the sweep thread has still
not exited. -/
theorem C5_counterexample :
    (runSched raceConf racePlan).st.writeAfterClose = 1
    ∧ (runSched raceConf racePlan).st.handle = some false
    ∧ (runSched raceConf racePlan).dpc = 5
    ∧ (runSched raceConf racePlan).spc = SweepPC.atAdvance := by decide

/-- C5 (amended): `disconnect` signals cancellation to both activities
(both activity flags cleared and the stop event set on every exit path)
but returns without waiting for the activities to observe it: it closes
the transport immediately, and there exists an interleaving in which
`disconnect` has fully returned while the sweep thread is still mid-loop
and a sweep write attempt has reached the already-closed transport
handle. -/
theorem C5_signals_without_waiting :
    (∀ (s : RFState) (b : Bool), ∃ t, disconnect s b = Except.ok t
        ∧ t.pollingActive = false ∧ t.sweepActive = false ∧ t.stopEvent = true)
    ∧ (∃ sched : List Move,
        (runSched raceConf sched).dpc = 5
        ∧ (runSched raceConf sched).spc ≠ SweepPC.done
        ∧ 0 < (runSched raceConf sched).st.writeAfterClose) := by
  refine ⟨fun s b => ?_, ⟨racePlan, by decide, by decide, by decide⟩⟩
  obtain ⟨t, h1, -, h3, h4, h5⟩ := disconnect_ok_fields s b
  exact ⟨t, h1, h3, h4, h5⟩

/-- C6: for every session state and even when the underlying close raises,
`disconnect` never propagates an error (it always returns `Except.ok`) and
the resulting state has `connected = false`. -/
theorem C6_disconnect_total (s : RFState) (b : Bool) :
    ∃ t, disconnect s b = Except.ok t ∧ t.connected = false := by
  obtain ⟨t, h1, h2, -, -, -⟩ := disconnect_ok_fields s b
  exact ⟨t, h1, h2⟩

/-- C7 counterexample: invoking `auto_connect` with empty discovery on a
session that is already connected returns the failure result and opens
nothing, but leaves `connected = true`, contradicting the claim's
`connected == false` postcondition for that invocation. -/
theorem C7_counterexample :
    auto_connect connState [] true = (connState, false) ∧ connState.connected = true :=
  ⟨rfl, rfl⟩

/-- C7 (amended): when discovery returns no endpoints, `auto_connect`
returns the failure result, opens no transport, and leaves the whole
session state unchanged — so `connected` keeps its prior value, which is
`false` exactly when the session was not already connected. -/
theorem C7_empty_discovery (s : RFState) (openOk : Bool) :
    auto_connect s [] openOk = (s, false) := rfl

/-- C8 counterexample: on the concrete connected session with an open
handle, a repeated `auto_connect` that finds a port and opens it succeeds
while overwriting the previous open handle without closing it: the leak
count rises from 0 to 1. -/
theorem C8_counterexample :
    connState.handle = some true ∧ connState.leaked = 0
    ∧ (auto_connect connState [("PORT1")] true).1.leaked = 1
    ∧ (auto_connect connState [("PORT1")] true).2 = true := by decide

/-- C8 (amended): calling `auto_connect` while already holding an open
handle performs no implicit disconnect: on open success the prior open
handle is overwritten without being closed (one more leaked handle), the
first discovered port is recorded, and the call reports success. -/
theorem C8_reconnect_leaks (s : RFState) (p : String) (rest : List String)
    (hH : s.handle = some true) :
    auto_connect s (p :: rest) true
      = ({ s with
            port := some p
            handle := some true
            connected := true
            leaked := s.leaked + 1 }, true) := by
  simp [auto_connect, hH]

/-- C8 witness: the amended claim evaluated on the concrete connected
session. -/
theorem C8_witness :
    connState.handle = some true
    ∧ auto_connect connState [("PORT1")] true
      = ({ connState with
            port := some ("PORT1")
            handle := some true
            connected := true
            leaked := connState.leaked + 1 }, true) :=
  ⟨rfl, C8_reconnect_leaks connState ("PORT1") [] rfl⟩

/-- C9 counterexample: the recent-lines buffer admits no fixed bound — for
every proposed bound there is a sequence of successful reads on the
concrete connected session after which the buffer is strictly larger. -/
theorem C9_counterexample :
    ¬ ∃ bound : Nat, ∀ inputs : List (Option String),
        ((read_many connState inputs).rxQueue).length ≤ bound := by
  rintro ⟨bound, hB⟩
  have h := hB (List.replicate (bound + 1) (some ("LINE")))
  rw [read_many_replicate (bound + 1) ("LINE") (by decide) connState rfl] at h
  simp [connState, initState] at h

/-- C9 (amended): the recent-lines buffer is an unbounded FIFO: on a
connected session each successful read appends the line at the tail, a
read with no data leaves the buffer unchanged, nothing is ever evicted,
and `n` successful reads grow the buffer by exactly `n`. -/
theorem C9_unbounded_fifo (s : RFState) (d : String) (n : Nat)
    (hC : s.connected = true) (hd : ¬ d = "") :
    (read_response s (some d)).1.rxQueue = s.rxQueue ++ [d]
    ∧ (read_response s none).1.rxQueue = s.rxQueue
    ∧ (read_many s (List.replicate n (some d))).rxQueue.length = s.rxQueue.length + n := by
  refine ⟨?_, ?_, read_many_replicate n d hd s hC⟩
  · rw [read_response]; simp [hC, hd]
  · rw [read_response]; simp [hC]

/-- C9 witness: the amended claim evaluated on the concrete connected
session with four reads of a status line. -/
theorem C9_witness :
    (connState.connected = true ∧ ¬ ("LOCKED") = "")
    ∧ ((read_response connState (some ("LOCKED"))).1.rxQueue
         = connState.rxQueue ++ [("LOCKED")]
       ∧ (read_response connState none).1.rxQueue = connState.rxQueue
       ∧ (read_many connState (List.replicate 4 (some ("LOCKED")))).rxQueue.length
           = connState.rxQueue.length + 4) :=
  ⟨⟨rfl, by decide⟩, C9_unbounded_fifo connState ("LOCKED") 4 rfl (by decide)⟩

/-- C10: on every connected session with an open handle, a sweep whose
`start_hz` is at or past `stop_hz` with a positive step still sends
exactly one set-frequency command, at `start_hz`, before the termination
test fires: the first command is issued unconditionally, and the run then
ends in the completed state. -/
theorem C10_first_command_unconditional (s : RFState) (start_freq stop_freq step_hz : ℚ)
    (n : Nat) (hC : s.connected = true) (hH : s.handle = some true)
    (hge : stop_freq ≤ start_freq) (hstep : 0 < step_hz) :
    (run_sweep s start_freq stop_freq step_hz (n + 1)).1.written
      = s.written ++ [Command.setFreq start_freq]
    ∧ (run_sweep s start_freq stop_freq step_hz (n + 1)).2
      = (StartResult.started, some (SweepEnd.completed (start_freq + step_hz))) := by
  have hle : stop_freq ≤ start_freq + step_hz := by linarith
  simp [run_sweep, run_sweep_start, sweep_loop_succ, send_command, hC, hH, hle]

/-- C10 witness: the claim evaluated at `start_hz = 7`, `stop_hz = 3`,
`step_hz = 2` on the concrete connected session. -/
theorem C10_witness :
    (connState.connected = true ∧ connState.handle = some true
      ∧ (3 : ℚ) ≤ 7 ∧ (0 : ℚ) < 2)
    ∧ ((run_sweep connState 7 3 2 1).1.written = connState.written ++ [Command.setFreq 7]
       ∧ (run_sweep connState 7 3 2 1).2
         = (StartResult.started, some (SweepEnd.completed (7 + 2)))) :=
  ⟨⟨rfl, rfl, by norm_num, by norm_num⟩,
    C10_first_command_unconditional connState 7 3 2 0 rfl rfl (by norm_num) (by norm_num)⟩
